import Mathlib

/-!
Verification development for the yaslog-rs logging facility
(source: src/src/logger.rs).

The embedding models:
 * the severity types (the crate's own LogLevel, and the log crate's
   LevelFilter and Level which the builder stores and fern filters by);
 * the LoggerBuilder configuration calls (new, level, max_file_size,
   targets) as pure functions on a builder record;
 * the per-directory filesystem state (the active file app.log and the
   single backup app.log.old) as optional byte lists, with explicit
   error-injection flags for each fallible I/O operation;
 * the rotation check rotate_file, the per-target setup loop of apply,
   and the process-wide installed-logger slot that dispatch.apply() sets
   at most once;
 * the shared record formatter.
-/

namespace Yaslog

/-- Embeds the crate's LogLevel enum (repr u16, Trace = 1 .. Error = 5). -/
inductive LogLevel
  | Trace
  | Debug
  | Info
  | Warn
  | Error
deriving DecidableEq, Repr

/-- Numeric representation of LogLevel, as declared in the source
(repr u16 starting at 1). -/
def LogLevel.toNat : LogLevel → Nat
  | .Trace => 1
  | .Debug => 2
  | .Info => 3
  | .Warn => 4
  | .Error => 5

/-- Models the log crate's LevelFilter (re-exported by the source as the
type of the builder's level field). Numeric order: Off = 0 .. Trace = 5. -/
inductive LevelFilter
  | Off
  | Error
  | Warn
  | Info
  | Debug
  | Trace
deriving DecidableEq, Repr

/-- Numeric representation of LevelFilter in the log crate. -/
def LevelFilter.toNat : LevelFilter → Nat
  | .Off => 0
  | .Error => 1
  | .Warn => 2
  | .Info => 3
  | .Debug => 4
  | .Trace => 5

/-- Models the log crate's Level: the severity carried by a record.
Numeric order: Error = 1 .. Trace = 5. -/
inductive Level
  | Error
  | Warn
  | Info
  | Debug
  | Trace
deriving DecidableEq, Repr

/-- Numeric representation of Level in the log crate. -/
def Level.toNat : Level → Nat
  | .Error => 1
  | .Warn => 2
  | .Info => 3
  | .Debug => 4
  | .Trace => 5

/-- Severity rank of a record level: Trace is least severe (1), Error is
most severe (5). -/
def Level.severity : Level → Nat
  | .Trace => 1
  | .Debug => 2
  | .Info => 3
  | .Warn => 4
  | .Error => 5

/-- Severity rank of a LogLevel, identical to its numeric repr in the
source: Trace least severe, Error most severe. -/
def LogLevel.severity (l : LogLevel) : Nat := l.toNat

/-- The filter equivalent of a LogLevel: the like-named LevelFilter. -/
def LogLevel.toLevelFilter : LogLevel → LevelFilter
  | .Trace => .Trace
  | .Debug => .Debug
  | .Info => .Info
  | .Warn => .Warn
  | .Error => .Error

/-- Models the log/fern dispatch-time filter that Dispatch.level installs:
a record with level l passes a filter f iff l's numeric value is at most
f's numeric value. -/
def levelPasses (f : LevelFilter) (l : Level) : Bool :=
  decide (l.toNat ≤ f.toNat)

/-- Embeds LogTarget: Console, or Dir with a directory path. Directories
are identified abstractly by an index into the world's directory table. -/
inductive LogTarget
  | Console
  | Dir (d : Nat)
deriving DecidableEq, Repr

/-- Embeds the Logger value: resolved level, max file size in bytes
(u128 in the source; only compared, never overflowed, so Nat), targets. -/
structure Logger where
  level : LevelFilter
  max_file_size : Nat
  targets : List LogTarget
deriving DecidableEq, Repr

/-- Embeds the LoggerBuilder staging value. -/
structure LoggerBuilder where
  level : LevelFilter
  max_file_size : Nat
  targets : List LogTarget
deriving DecidableEq, Repr

/-- Embeds DEFAULT_MAX_FILE_SIZE = 1024 * 1024. -/
def DEFAULT_MAX_FILE_SIZE : Nat := 1024 * 1024

/-- Embeds LoggerBuilder::new: Trace level, default max size, no targets. -/
def LoggerBuilder.new : LoggerBuilder :=
  { level := LevelFilter.Trace, max_file_size := DEFAULT_MAX_FILE_SIZE, targets := [] }

/-- Embeds LoggerBuilder::level (renamed: the field projection takes the
source name): overwrites the level field. -/
def LoggerBuilder.setLevel (b : LoggerBuilder) (level : LevelFilter) : LoggerBuilder :=
  { b with level := level }

/-- Embeds LoggerBuilder::max_file_size (renamed as for setLevel):
overwrites the max_file_size field, with no validation. -/
def LoggerBuilder.setMaxFileSize (b : LoggerBuilder) (max_file_size : Nat) : LoggerBuilder :=
  { b with max_file_size := max_file_size }

/-- Embeds LoggerBuilder::targets (renamed as for setLevel): pushes each
given target onto the target list in iteration order. -/
def LoggerBuilder.addTargets (b : LoggerBuilder) (ts : List LogTarget) : LoggerBuilder :=
  ts.foldl (fun acc t => { acc with targets := acc.targets ++ [t] }) b

/-- Embeds Logger::get_log_path: the active file is dir/app.log. -/
def get_log_path (dir : String) : String := dir ++ "/app.log"

/-- Embeds Logger::get_old_log_path: the backup file is dir/app.log.old. -/
def get_old_log_path (dir : String) : String := dir ++ "/app.log.old"

/-- Filesystem state of one directory target: whether the directory
exists, and the contents (byte lists) of the active file app.log and the
backup app.log.old, none when the file does not exist. -/
structure DirState where
  dirExists : Bool
  active : Option (List Nat)
  old : Option (List Nat)
deriving DecidableEq, Repr

/-- Error injection for the fallible I/O operations touching one
directory target. Each flag makes the corresponding operation fail. -/
structure DirErrors where
  createDirFails : Bool
  openMetaFails : Bool
  removeFails : Bool
  renameFails : Bool
  logFileOpenFails : Bool
deriving DecidableEq, Repr

/-- The all-successful error environment. -/
def noErrors : DirErrors :=
  { createDirFails := false, openMetaFails := false, removeFails := false,
    renameFails := false, logFileOpenFails := false }

/-- A directory that does not exist yet and holds no files. -/
def emptyDir : DirState :=
  { dirExists := false, active := none, old := none }

/-- The error kinds that LoggerBuilder::rotate_file can return: the
File::open/metadata size query, fs::remove_file, or fs::rename failed. -/
inductive RotErr
  | openMeta
  | remove
  | rename
deriving DecidableEq, Repr

/-- Embeds LoggerBuilder::rotate_file. Returns the error (if any is
raised) together with the directory state after the operations that had
already succeeded, matching the early-return semantics of the source:
 * if app.log does not exist, do nothing and succeed;
 * otherwise query its size (fallible); if the size exceeds
   max_file_size strictly, delete app.log.old when present (fallible)
   and then rename app.log to app.log.old (fallible). -/
def rotate_file (e : DirErrors) (fs : DirState) (max_file_size : Nat) :
    Option RotErr × DirState :=
  match fs.active with
  | none => (none, fs)
  | some content =>
    if e.openMetaFails then (some RotErr.openMeta, fs)
    else if content.length > max_file_size then
      match fs.old with
      | some _ =>
        if e.removeFails then (some RotErr.remove, fs)
        else
          if e.renameFails then (some RotErr.rename, { fs with old := none })
          else (none, { fs with active := none, old := some content })
      | none =>
        if e.renameFails then (some RotErr.rename, fs)
        else (none, { fs with active := none, old := some content })
    else (none, fs)

/-- A sink attached to the dispatch: process stdout, or the append-mode
log file of a directory target. -/
inductive Sink
  | stdout
  | file (d : Nat)
deriving DecidableEq, Repr

/-- The assembled fern dispatch: one shared level filter and the list of
sinks in registration order. -/
structure Dispatch where
  level : LevelFilter
  sinks : List Sink
deriving DecidableEq, Repr

/-- Process-wide state: the directory table (indexed by the Dir target's
identifier) and the global active-logger slot that dispatch.apply() sets. -/
structure World where
  dirs : List DirState
  installed : Option Dispatch
deriving DecidableEq, Repr

/-- The directory state for identifier d (a directory never mentioned in
the table is empty). -/
def World.dirAt (w : World) (d : Nat) : DirState :=
  w.dirs.getD d emptyDir

/-- Overwrites the directory state for identifier d. -/
def World.setDir (w : World) (d : Nat) (ds : DirState) : World :=
  { w with dirs := w.dirs.set d ds }

/-- The error environment for identifier d in an error table. -/
def errAt (errs : List DirErrors) (d : Nat) : DirErrors :=
  errs.getD d noErrors

/-- The build-failure kinds that LoggerBuilder::apply can propagate:
a rotation error, a failure of fern::log_file, or set_logger refusing a
second installation. -/
inductive BuildErr
  | rotation (e : RotErr)
  | fileOpen
  | setLogger
deriving DecidableEq, Repr

/-- Outcome of the per-target setup loop: success with the updated world
and sink list, an early-returned error with the world as mutated so far,
or a process abort (the unwrap on directory creation). -/
inductive StepRes
  | ok (w : World) (sinks : List Sink)
  | err (e : BuildErr) (w : World)
  | panicked
deriving DecidableEq, Repr

/-- Embeds the directory-existence check and fs::create_dir_all(..).unwrap()
of LoggerBuilder::apply: none models the process abort when creation
fails; creation makes the directory (and its ancestors) exist. -/
def ensureDir (e : DirErrors) (ds : DirState) : Option DirState :=
  if ds.dirExists then some ds
  else if e.createDirFails then none
  else some { ds with dirExists := true }

/-- Embeds the target loop of LoggerBuilder::apply: for Console chain
stdout; for Dir d ensure the directory, run the rotation check, then
open the log file in append mode (creating it when missing) and chain
it. Errors early-return; the world keeps all effects already performed. -/
def setupTargets (errs : List DirErrors) (max_file_size : Nat) :
    List LogTarget → World → List Sink → StepRes
  | [], w, sinks => StepRes.ok w sinks
  | LogTarget.Console :: rest, w, sinks =>
    setupTargets errs max_file_size rest w (sinks ++ [Sink.stdout])
  | LogTarget.Dir d :: rest, w, sinks =>
    match ensureDir (errAt errs d) (w.dirAt d) with
    | none => StepRes.panicked
    | some ds1 =>
      match rotate_file (errAt errs d) ds1 max_file_size with
      | (some re, ds2) => StepRes.err (BuildErr.rotation re) (w.setDir d ds2)
      | (none, ds2) =>
        if (errAt errs d).logFileOpenFails then
          StepRes.err BuildErr.fileOpen (w.setDir d ds2)
        else
          setupTargets errs max_file_size rest
            (w.setDir d { ds2 with active := some (ds2.active.getD []) })
            (sinks ++ [Sink.file d])

/-- Outcome of apply/build: success, a build failure, or a process
abort. In every non-abort case the resulting world is returned. -/
inductive BuildRes
  | ok (w : World)
  | err (e : BuildErr) (w : World)
  | panicked
deriving DecidableEq, Repr

/-- Embeds LoggerBuilder::apply: build the dispatch with the shared
formatter and level, set up every target in order, then install the
dispatch as the process-wide logger; dispatch.apply() fails iff a logger
is already installed, and on that failure the slot is left unchanged. -/
def LoggerBuilder.apply (errs : List DirErrors) (logger : Logger) (w : World) : BuildRes :=
  match setupTargets errs logger.max_file_size logger.targets w [] with
  | StepRes.panicked => BuildRes.panicked
  | StepRes.err e w1 => BuildRes.err e w1
  | StepRes.ok w1 sinks =>
    match w1.installed with
    | some _ => BuildRes.err BuildErr.setLogger w1
    | none => BuildRes.ok { w1 with installed := some { level := logger.level, sinks := sinks } }

/-- Embeds LoggerBuilder::build: construct the Logger value from the
builder's fields and run apply. -/
def LoggerBuilder.build (errs : List DirErrors) (b : LoggerBuilder) (w : World) : BuildRes :=
  LoggerBuilder.apply errs
    { level := b.level, max_file_size := b.max_file_size, targets := b.targets } w

/-- The sink each target contributes when its setup succeeds. -/
def targetSink : LogTarget → Sink
  | LogTarget.Console => Sink.stdout
  | LogTarget.Dir d => Sink.file d

/-- The sinks all targets contribute, in registration order. -/
def targetSinks (ts : List LogTarget) : List Sink :=
  ts.map targetSink

/-- Embeds the record formatter closure of LoggerBuilder::apply: the
line number defaults to 0 when the record has none, and the output is
bracketed timestamp, angle-bracketed level, bracketed target and line
separated by a colon, a space, then the message. -/
def formatRecord (ts lvl tgt : String) (line? : Option Nat) (msg : String) : String :=
  let line : Nat :=
    match line? with
    | some l => l
    | none => 0
  "[" ++ ts ++ "]" ++ "<" ++ lvl ++ ">" ++ "[" ++ tgt ++ ":" ++ toString line ++ "]" ++ " " ++ msg

/-- Restates the spec's formatted-record-line contract in its own words:
bracketed timestamp, then the level between angle brackets, then the
target and the line number (0 when unknown) between square brackets
separated by a colon, then a space and the message. Compared with the
source-derived formatRecord. -/
def formatRecordSpec (ts lvl tgt : String) (line? : Option Nat) (msg : String) : String :=
  "[" ++ ts ++ "]" ++ "<" ++ lvl ++ ">" ++ "[" ++ tgt ++ ":" ++ toString (line?.getD 0) ++ "]"
    ++ " " ++ msg

/-- Fixture: a builder with a console and one directory target. -/
def bS : LoggerBuilder :=
  { level := LevelFilter.Info, max_file_size := 5,
    targets := [LogTarget.Console, LogTarget.Dir 0] }

/-- Fixture: a world with one existing, empty directory and no installed
logger. -/
def wS : World :=
  { dirs := [{ dirExists := true, active := none, old := none }], installed := none }

/-- Fixture: a dispatch standing for an already-installed logger. -/
def D0 : Dispatch := { level := LevelFilter.Trace, sinks := [] }

/-- Fixture: a world whose global logger slot is already occupied. -/
def w4 : World := { dirs := [], installed := some D0 }

/-- Fixture: directory creation fails for directory 0. -/
def errs8 : List DirErrors := [{ noErrors with createDirFails := true }]

/-- Fixture: a builder with one directory target and a tiny threshold. -/
def b8 : LoggerBuilder :=
  { level := LevelFilter.Trace, max_file_size := 0, targets := [LogTarget.Dir 0] }

/-- Fixture: a world with no directories materialised. -/
def w8 : World := { dirs := [], installed := none }

/-- Fixture: the size query fails for directory 0. -/
def errs10 : List DirErrors := [{ noErrors with openMetaFails := true }]

/-- Fixture: a builder with one directory target and a large threshold. -/
def b10 : LoggerBuilder :=
  { level := LevelFilter.Trace, max_file_size := 100, targets := [LogTarget.Dir 0] }

/-- Fixture: a world where directory 0 holds a small active file and a
backup. -/
def w10 : World :=
  { dirs := [{ dirExists := true, active := some [1, 2], old := some [9] }],
    installed := none }

theorem World.setDir_installed (w : World) (d : Nat) (ds : DirState) :
    (w.setDir d ds).installed = w.installed := rfl

theorem addTargets_eq (ts : List LogTarget) : ∀ b : LoggerBuilder,
    b.addTargets ts = { b with targets := b.targets ++ ts } := by
  induction ts with
  | nil =>
    intro b
    show b = { b with targets := b.targets ++ [] }
    simp
  | cons t rest ih =>
    intro b
    have h1 : b.addTargets (t :: rest) =
        LoggerBuilder.addTargets { b with targets := b.targets ++ [t] } rest := rfl
    rw [h1, ih]
    simp

theorem setupTargets_err_frame (errs : List DirErrors) (max_file_size : Nat) :
    ∀ (ts : List LogTarget) (w : World) (sinks : List Sink) (e : BuildErr) (w' : World),
      setupTargets errs max_file_size ts w sinks = StepRes.err e w' →
      w'.installed = w.installed := by
  intro ts
  induction ts with
  | nil =>
    intro w sinks e w' h
    simp [setupTargets] at h
  | cons t rest ih =>
    intro w sinks e w' h
    cases t with
    | Console => exact ih w (sinks ++ [Sink.stdout]) e w' h
    | Dir d =>
      simp only [setupTargets] at h
      split at h
      · simp at h
      · split at h
        · cases h
          exact World.setDir_installed w d _
        · split at h
          · cases h
            exact World.setDir_installed w d _
          · rw [ih _ _ _ _ h]
            exact World.setDir_installed w d _

theorem setupTargets_ok_frame (errs : List DirErrors) (max_file_size : Nat) :
    ∀ (ts : List LogTarget) (w : World) (sinks out : List Sink) (w' : World),
      setupTargets errs max_file_size ts w sinks = StepRes.ok w' out →
      w'.installed = w.installed ∧ out = sinks ++ targetSinks ts := by
  intro ts
  induction ts with
  | nil =>
    intro w sinks out w' h
    cases h
    exact ⟨rfl, by simp [targetSinks]⟩
  | cons t rest ih =>
    intro w sinks out w' h
    cases t with
    | Console =>
      obtain ⟨h1, h2⟩ := ih w (sinks ++ [Sink.stdout]) out w' h
      exact ⟨h1, by simp [h2, targetSinks, targetSink]⟩
    | Dir d =>
      simp only [setupTargets] at h
      split at h
      · simp at h
      · split at h
        · simp at h
        · split at h
          · simp at h
          · obtain ⟨h1, h2⟩ := ih _ _ out w' h
            refine ⟨by rw [h1]; exact World.setDir_installed w d _, ?_⟩
            simp [h2, targetSinks, targetSink]

/-- Claim C1: the rotation check compares the active file's size to the
threshold with strict greater-than: at size = T the state is returned
untouched, and rotation (move to the backup slot) happens exactly when
the size exceeds T. -/
theorem rotate_file_strictly_greater (fs : DirState) (T : Nat) (c : List Nat)
    (hA : fs.active = some c) :
    rotate_file noErrors fs T =
      (none, if T < c.length then { fs with active := none, old := some c } else fs) := by
  unfold rotate_file
  rw [hA]
  rcases Nat.lt_or_ge T c.length with h | h
  · cases hO : fs.old with
    | none => simp [noErrors, h]
    | some o => simp [noErrors, h]
  · have h2 : ¬ c.length > T := Nat.not_lt.mpr h
    simp [noErrors, h2, Nat.not_lt.mpr h, Nat.lt_irrefl]

/-- Witness for C1 at both sides of the boundary: a 3-byte file with
threshold 3 is untouched, a 4-byte file with threshold 3 rotates. -/
theorem rotate_file_strictly_greater_witness :
    rotate_file noErrors { dirExists := true, active := some [7, 7, 7], old := none } 3 =
      (none, { dirExists := true, active := some [7, 7, 7], old := none }) ∧
    rotate_file noErrors { dirExists := true, active := some [7, 7, 7, 7], old := none } 3 =
      (none, { dirExists := true, active := none, old := some [7, 7, 7, 7] }) := by
  constructor
  · have h := rotate_file_strictly_greater
      { dirExists := true, active := some [7, 7, 7], old := none } 3 [7, 7, 7] rfl
    simpa using h
  · have h := rotate_file_strictly_greater
      { dirExists := true, active := some [7, 7, 7, 7], old := none } 3 [7, 7, 7, 7] rfl
    simpa using h

/-- Claim C2: when rotation triggers (active file present and strictly
above the threshold, no I/O errors), any existing backup is deleted and
the active file is renamed over it: afterwards the backup slot holds
exactly the pre-rotation active content, the active slot is empty, and
the single backup slot of the model is the only backup generation. -/
theorem rotate_file_overwrites_backup (fs : DirState) (T : Nat) (c : List Nat)
    (hA : fs.active = some c) (hgt : T < c.length) :
    rotate_file noErrors fs T = (none, { fs with active := none, old := some c }) := by
  unfold rotate_file
  rw [hA]
  cases hO : fs.old with
  | none => simp [noErrors, hgt]
  | some o => simp [noErrors, hgt]

/-- Witness for C2: a 4-byte file with threshold 3 and an existing
2-byte backup; the backup ends up holding the 4 bytes. -/
theorem rotate_file_overwrites_backup_witness :
    rotate_file noErrors { dirExists := true, active := some [1, 2, 3, 4], old := some [9, 9] } 3 =
      (none, { dirExists := true, active := none, old := some [1, 2, 3, 4] }) :=
  rotate_file_overwrites_backup
    { dirExists := true, active := some [1, 2, 3, 4], old := some [9, 9] } 3 [1, 2, 3, 4]
    rfl (by decide)

/-- Claim C7: when the active file does not exist the rotation check is
a no-op that succeeds, whatever the error environment: no deletion, no
rename, no file created, no error. -/
theorem rotate_file_missing_noop (e : DirErrors) (fs : DirState) (T : Nat)
    (hA : fs.active = none) :
    rotate_file e fs T = (none, fs) := by
  unfold rotate_file
  rw [hA]

/-- Witness for C7: a directory holding only a backup, with every error
flag raised. -/
theorem rotate_file_missing_noop_witness :
    rotate_file
      { createDirFails := true, openMetaFails := true, removeFails := true,
        renameFails := true, logFileOpenFails := true }
      { dirExists := true, active := none, old := some [9] } 3 =
      (none, { dirExists := true, active := none, old := some [9] }) :=
  rotate_file_missing_noop _ _ 3 rfl

/-- Claim C10: when the active file exists but the size query fails, the
rotation check returns that error with the directory untouched (backup
not deleted, active file not renamed), and build propagates it as a
build failure. -/
theorem rotate_file_size_query_error (errs : List DirErrors) (b : LoggerBuilder)
    (w : World) (d : Nat) (rest : List LogTarget) (c : List Nat)
    (hT : b.targets = LogTarget.Dir d :: rest)
    (hEx : (w.dirAt d).dirExists = true)
    (hA : (w.dirAt d).active = some c)
    (hOpen : (errAt errs d).openMetaFails = true) :
    rotate_file (errAt errs d) (w.dirAt d) b.max_file_size =
      (some RotErr.openMeta, w.dirAt d) ∧
    LoggerBuilder.build errs b w =
      BuildRes.err (BuildErr.rotation RotErr.openMeta) (w.setDir d (w.dirAt d)) := by
  have hRot : rotate_file (errAt errs d) (w.dirAt d) b.max_file_size =
      (some RotErr.openMeta, w.dirAt d) := by
    unfold rotate_file
    rw [hA, hOpen]
    simp
  refine ⟨hRot, ?_⟩
  have hED : ensureDir (errAt errs d) (w.dirAt d) = some (w.dirAt d) := by
    unfold ensureDir
    rw [hEx]
    simp
  simp only [LoggerBuilder.build, LoggerBuilder.apply, hT, setupTargets, hED, hRot]

/-- Witness for C10: directory 0 holds a 2-byte active file and a backup,
the size query is made to fail, and build fails leaving both files in
place. -/
theorem rotate_file_size_query_error_witness :
    rotate_file (errAt errs10 0) (w10.dirAt 0) b10.max_file_size =
      (some RotErr.openMeta, w10.dirAt 0) ∧
    LoggerBuilder.build errs10 b10 w10 =
      BuildRes.err (BuildErr.rotation RotErr.openMeta) (w10.setDir 0 (w10.dirAt 0)) :=
  rotate_file_size_query_error errs10 b10 w10 0 [] [1, 2] rfl rfl rfl rfl

/-- Claim C5: setting the level to the filter equivalent of a LogLevel
changes exactly the level field of the builder (a pure update, no I/O,
no failure), and under the dispatch-time filter semantics a record then
passes iff its severity is at least that of the LogLevel. -/
theorem level_sets_filter (b : LoggerBuilder) (L : LogLevel) :
    (b.setLevel L.toLevelFilter).level = L.toLevelFilter ∧
    (b.setLevel L.toLevelFilter).max_file_size = b.max_file_size ∧
    (b.setLevel L.toLevelFilter).targets = b.targets ∧
    ∀ r : Level, levelPasses L.toLevelFilter r = true ↔ L.severity ≤ r.severity := by
  refine ⟨rfl, rfl, rfl, ?_⟩
  intro r
  cases L <;> cases r <;> decide

/-- Claim C6: the source formatter produces exactly the spec's line
shape, with the record's line number rendered as 0 when unknown. -/
theorem formatRecord_matches_contract :
    ∀ (ts lvl tgt : String) (line? : Option Nat) (msg : String),
      formatRecord ts lvl tgt line? msg = formatRecordSpec ts lvl tgt line? msg := by
  intro ts lvl tgt line? msg
  cases line? <;> rfl

/-- Claim C9: each configuration call touches only its own field: level
and max_file_size overwrite theirs (any Nat, including 0, accepted
unvalidated) and targets appends in order, all other fields unchanged. -/
theorem builder_calls_frame (b : LoggerBuilder) (L : LevelFilter) (n : Nat)
    (ts : List LogTarget) :
    (b.setLevel L).level = L ∧
    (b.setLevel L).max_file_size = b.max_file_size ∧
    (b.setLevel L).targets = b.targets ∧
    (b.setMaxFileSize n).max_file_size = n ∧
    (b.setMaxFileSize n).level = b.level ∧
    (b.setMaxFileSize n).targets = b.targets ∧
    (b.addTargets ts).level = b.level ∧
    (b.addTargets ts).max_file_size = b.max_file_size ∧
    (b.addTargets ts).targets = b.targets ++ ts := by
  refine ⟨rfl, rfl, rfl, rfl, rfl, rfl, ?_, ?_, ?_⟩ <;> rw [addTargets_eq]

/-- Claim C3: build is all-or-nothing: on any failure the global logger
slot is exactly what it was before the call (no dispatch installed), and
on success the installed dispatch carries the sinks of every configured
target, so no partial set of sinks is ever active. -/
theorem build_all_or_nothing (errs : List DirErrors) (b : LoggerBuilder) (w : World) :
    (∀ e w', LoggerBuilder.build errs b w = BuildRes.err e w' → w'.installed = w.installed) ∧
    (∀ w', LoggerBuilder.build errs b w = BuildRes.ok w' →
      w'.installed = some { level := b.level, sinks := targetSinks b.targets }) := by
  constructor
  · intro e w' h
    simp only [LoggerBuilder.build, LoggerBuilder.apply] at h
    split at h
    · simp at h
    · cases h
      exact setupTargets_err_frame errs b.max_file_size b.targets w [] _ _ (by assumption)
    · split at h
      · cases h
        exact (setupTargets_ok_frame errs b.max_file_size b.targets w [] _ _ (by assumption)).1
      · simp at h
  · intro w' h
    simp only [LoggerBuilder.build, LoggerBuilder.apply] at h
    split at h
    · simp at h
    · simp at h
    · split at h
      · simp at h
      · cases h
        have hok := setupTargets_ok_frame errs b.max_file_size b.targets w [] _ _ (by assumption)
        simp [hok.2]

/-- Witness for C3: a successful build over a console target and one
existing directory installs the dispatch with both sinks. -/
theorem build_all_or_nothing_witness :
    ({ dirs := [{ dirExists := true, active := some [], old := none }],
       installed := some { level := LevelFilter.Info, sinks := [Sink.stdout, Sink.file 0] } } :
        World).installed =
      some { level := bS.level, sinks := targetSinks bS.targets } :=
  (build_all_or_nothing [] bS wS).2 _ (by decide)

/-- Claim C4: once a logger is installed, no later build can succeed:
every outcome is a failure (or the separate directory-creation abort),
and any build failure leaves the installed logger exactly as it was. -/
theorem install_at_most_once (errs : List DirErrors) (b : LoggerBuilder) (w : World)
    (D : Dispatch) (h : w.installed = some D) :
    (∀ w', LoggerBuilder.build errs b w ≠ BuildRes.ok w') ∧
    (∀ e w', LoggerBuilder.build errs b w = BuildRes.err e w' → w'.installed = some D) := by
  constructor
  · intro w' hk
    simp only [LoggerBuilder.build, LoggerBuilder.apply] at hk
    split at hk
    · simp at hk
    · simp at hk
    · split at hk
      · simp at hk
      · have hok := setupTargets_ok_frame errs b.max_file_size b.targets w [] _ _ (by assumption)
        obtain ⟨h1, h2⟩ := hok
        simp_all
  · intro e w' he
    simp only [LoggerBuilder.build, LoggerBuilder.apply] at he
    split at he
    · simp at he
    · cases he
      rw [setupTargets_err_frame errs b.max_file_size b.targets w [] _ _ (by assumption)]
      exact h
    · split at he
      · cases he
        rw [(setupTargets_ok_frame errs b.max_file_size b.targets w [] _ _ (by assumption)).1]
        exact h
      · simp at he

/-- Witness for C4: on a world whose slot holds a dispatch, a fresh
build fails and the slot still holds that dispatch. -/
theorem install_at_most_once_witness : w4.installed = some D0 :=
  (install_at_most_once [] LoggerBuilder.new w4 D0 rfl).2 BuildErr.setLogger w4 (by decide)

/-- Claim C8: setting up a Dir target whose directory is missing creates
it (with ancestors, modelled as the existence flag) when creation works,
and when creation fails the process aborts (the unwrap) instead of
returning a build failure. -/
theorem dir_creation_is_fatal (errs : List DirErrors) (b : LoggerBuilder) (w : World)
    (d : Nat) (rest : List LogTarget)
    (hT : b.targets = LogTarget.Dir d :: rest)
    (hMiss : (w.dirAt d).dirExists = false) :
    ((errAt errs d).createDirFails = true →
      LoggerBuilder.build errs b w = BuildRes.panicked) ∧
    ((errAt errs d).createDirFails = false →
      ensureDir (errAt errs d) (w.dirAt d) = some { w.dirAt d with dirExists := true }) := by
  constructor
  · intro hc
    have hED : ensureDir (errAt errs d) (w.dirAt d) = none := by
      unfold ensureDir
      rw [hMiss, hc]
      simp
    simp only [LoggerBuilder.build, LoggerBuilder.apply, hT, setupTargets, hED]
  · intro hc
    unfold ensureDir
    rw [hMiss, hc]
    simp

/-- Witness for C8: directory 0 absent and its creation failing makes
build abort the process. -/
theorem dir_creation_is_fatal_witness :
    LoggerBuilder.build errs8 b8 w8 = BuildRes.panicked :=
  (dir_creation_is_fatal errs8 b8 w8 0 [] rfl rfl).1 rfl

end Yaslog
